import Mathlib

/-!
Verification of the JCToolKit `SocketHandler` network layer.

The repository ships only the interface header
(`src/Network/SocketHandler.h`): every operation is declared there with a
doc comment, but the implementation file is not part of the sources.
Consequently the operations below are shallow embeddings modelled from the
specification (each such definition says so in its doc comment).  The header
still fixes the signatures, the default argument values and the constant
`SOCKET_DEFAULT_BUF_SIZE = 256 * 1024`, and those are taken from it
verbatim.

The OS is represented by small oracle structures (what each native call
would answer), and each operation returns both its result and the trace of
native calls it issued, so that ordering and "no hidden effect" properties
can be stated.
-/

namespace JCToolKit

/-- Address family of an endpoint (AF_INET / AF_INET6). -/
inductive Family
  | ipv4
  | ipv6
deriving DecidableEq, Repr

/-- A binary IP address: its family together with the address bits as a
natural number (32 bits for IPv4, 128 bits for IPv6). -/
structure IPAddr where
  family : Family
  value : Nat
deriving DecidableEq, Repr

/-- The any-address: `0.0.0.0` for IPv4, `::` for IPv6 (all bits zero). -/
def IPAddr.isAny (a : IPAddr) : Bool :=
  a.value == 0

/-- A loopback address: `127.0.0.0/8` for IPv4, `::1` for IPv6. -/
def IPAddr.isLoopback (a : IPAddr) : Bool :=
  match a.family with
  | Family.ipv4 => a.value / 16777216 == 127
  | Family.ipv6 => a.value == 1

/-- A resolved socket address: family, address bits and port, the relevant
content of a `struct sockaddr` filled in by `getDomainIP`. -/
structure SockAddrT where
  family : Family
  value : Nat
  port : Nat
deriving DecidableEq, Repr

/-- `#define SOCKET_DEFAULT_BUF_SIZE (256 * 1024)` from the header. -/
def SOCKET_DEFAULT_BUF_SIZE : Nat := 256 * 1024

/-- Symbolic names of the native socket options touched by the option
setters. -/
inductive OptName
  | TCP_NODELAY
  | SO_NOSIGPIPE
  | O_NONBLOCK
  | SO_RCVBUF
  | SO_SNDBUF
  | SO_REUSEADDR
  | SO_BROADCAST
  | SO_KEEPALIVE
  | FD_CLOEXEC
  | SO_LINGER
  | IP_MULTICAST_TTL
  | IP_MULTICAST_IF
  | IP_MULTICAST_LOOP
deriving DecidableEq, Repr

/-- A single native option-setting call: a `setsockopt` with an integer
argument, a `setsockopt` carrying an interface address, an `ioctl`-style
flag change, or an `fcntl`-style descriptor-flag change. -/
inductive OptCall
  | sockopt (sock : Int) (name : OptName) (arg : Int)
  | sockoptAddr (sock : Int) (name : OptName) (addr : String)
  | ioctlFlag (sock : Int) (name : OptName) (enable : Bool)
  | fcntlFlag (fd : Int) (name : OptName) (enable : Bool)
deriving DecidableEq, Repr

/-- OS oracle for option setting: which native calls report an error. -/
structure OptOS where
  fails : OptCall → Bool

/-- Issue one native option-setting call against the OS oracle: the result
is `-1` when the OS reports an error and `0` otherwise, and the trace
records exactly that one call. -/
def osCall (os : OptOS) (c : OptCall) : Int × List OptCall :=
  (if os.fails c then -1 else 0, [c])

/-- Modelled from the spec (the implementation of
`SocketHandler::setNoDelay` is missing from the sources): one
`TCP_NODELAY` setsockopt. -/
def setNoDelay (os : OptOS) (sock : Int) (enable : Bool) : Int × List OptCall :=
  osCall os (OptCall.sockopt sock OptName.TCP_NODELAY (if enable then 1 else 0))

/-- Modelled from the spec (the implementation of
`SocketHandler::setNoSigpipe` is missing from the sources): one
`SO_NOSIGPIPE` setsockopt. -/
def setNoSigpipe (os : OptOS) (sock : Int) : Int × List OptCall :=
  osCall os (OptCall.sockopt sock OptName.SO_NOSIGPIPE 1)

/-- Modelled from the spec (the implementation of
`SocketHandler::setNoBlocked` is missing from the sources): one
ioctl-style non-blocking flag change. -/
def setNoBlocked (os : OptOS) (sock : Int) (noblock : Bool) : Int × List OptCall :=
  osCall os (OptCall.ioctlFlag sock OptName.O_NONBLOCK noblock)

/-- Modelled from the spec (the implementation of
`SocketHandler::setRecvBuf` is missing from the sources): one `SO_RCVBUF`
setsockopt with the requested byte count. -/
def setRecvBuf (os : OptOS) (sock : Int) (size : Int) : Int × List OptCall :=
  osCall os (OptCall.sockopt sock OptName.SO_RCVBUF size)

/-- `setRecvBuf` applied at its declared default argument
`size = SOCKET_DEFAULT_BUF_SIZE` (header line 92). -/
def setRecvBufDefault (os : OptOS) (sock : Int) : Int × List OptCall :=
  setRecvBuf os sock (SOCKET_DEFAULT_BUF_SIZE : Int)

/-- Modelled from the spec (the implementation of
`SocketHandler::setSendBuf` is missing from the sources): one `SO_SNDBUF`
setsockopt with the requested byte count. -/
def setSendBuf (os : OptOS) (sock : Int) (size : Int) : Int × List OptCall :=
  osCall os (OptCall.sockopt sock OptName.SO_SNDBUF size)

/-- `setSendBuf` applied at its declared default argument
`size = SOCKET_DEFAULT_BUF_SIZE` (header line 101). -/
def setSendBufDefault (os : OptOS) (sock : Int) : Int × List OptCall :=
  setSendBuf os sock (SOCKET_DEFAULT_BUF_SIZE : Int)

/-- Modelled from the spec (the implementation of
`SocketHandler::setReuseable` is missing from the sources): one
`SO_REUSEADDR` setsockopt. -/
def setReuseable (os : OptOS) (sock : Int) (enable : Bool) : Int × List OptCall :=
  osCall os (OptCall.sockopt sock OptName.SO_REUSEADDR (if enable then 1 else 0))

/-- Modelled from the spec (the implementation of
`SocketHandler::setBroadcast` is missing from the sources): one
`SO_BROADCAST` setsockopt. -/
def setBroadcast (os : OptOS) (sock : Int) (enable : Bool) : Int × List OptCall :=
  osCall os (OptCall.sockopt sock OptName.SO_BROADCAST (if enable then 1 else 0))

/-- Modelled from the spec (the implementation of
`SocketHandler::setKeepAlive` is missing from the sources): one
`SO_KEEPALIVE` setsockopt. -/
def setKeepAlive (os : OptOS) (sock : Int) (enable : Bool) : Int × List OptCall :=
  osCall os (OptCall.sockopt sock OptName.SO_KEEPALIVE (if enable then 1 else 0))

/-- Modelled from the spec (the implementation of
`SocketHandler::setCloExec` is missing from the sources): one fcntl-style
`FD_CLOEXEC` flag change; applies to any descriptor, not only sockets. -/
def setCloExec (os : OptOS) (fd : Int) (enable : Bool) : Int × List OptCall :=
  osCall os (OptCall.fcntlFlag fd OptName.FD_CLOEXEC enable)

/-- Modelled from the spec (the implementation of
`SocketHandler::setCloseWait` is missing from the sources): one
`SO_LINGER` setsockopt carrying the timeout in seconds. -/
def setCloseWait (os : OptOS) (sock : Int) (second : Int) : Int × List OptCall :=
  osCall os (OptCall.sockopt sock OptName.SO_LINGER second)

/-- Modelled from the spec (the implementation of
`SocketHandler::setMultiTTL` is missing from the sources): one
`IP_MULTICAST_TTL` setsockopt. -/
def setMultiTTL (os : OptOS) (sock : Int) (ttl : Int) : Int × List OptCall :=
  osCall os (OptCall.sockopt sock OptName.IP_MULTICAST_TTL ttl)

/-- Modelled from the spec (the implementation of
`SocketHandler::setMultiIF` is missing from the sources): one
`IP_MULTICAST_IF` setsockopt carrying the local interface address. -/
def setMultiIF (os : OptOS) (sock : Int) (strLocalIp : String) : Int × List OptCall :=
  osCall os (OptCall.sockoptAddr sock OptName.IP_MULTICAST_IF strLocalIp)

/-- Modelled from the spec (the implementation of
`SocketHandler::setMultiLOOP` is missing from the sources): one
`IP_MULTICAST_LOOP` setsockopt. -/
def setMultiLOOP (os : OptOS) (sock : Int) (bAccept : Bool) : Int × List OptCall :=
  osCall os (OptCall.sockopt sock OptName.IP_MULTICAST_LOOP (if bAccept then 1 else 0))

/-- The shared contract of 4.2: a setter is a single-call wrapper for the
native call `c` when it returns `-1` exactly on OS error, `0` otherwise,
and its trace is exactly `[c]` — no early return, no extra effect, no
layer-level validation of the handle. -/
def SingleCallSetter (run : OptOS → Int × List OptCall) (c : OptCall) : Prop :=
  ∀ os, run os = (if os.fails c then -1 else 0, [c])

/-! ## Address resolution (`getDomainIP`, spec 4.1) -/

/-- An address usable for disambiguation: neither the any-address nor a
loopback address. -/
def usableAddr (a : IPAddr) : Bool :=
  !a.isAny && !a.isLoopback

/-- The candidate entries of a lookup result: the IPv4 entries when at
least one IPv4 entry exists (IPv4 is preferred over IPv6), otherwise all
entries. -/
def pickCandidates (entries : List IPAddr) : List IPAddr :=
  if entries.any (fun e => e.family == Family.ipv4) then
    entries.filter (fun e => e.family == Family.ipv4)
  else
    entries

/-- Modelled from the spec (the implementation of the selection policy of
`SocketHandler::getDomainIP` is missing from the sources): among the
candidates, the first address that is neither the any-address nor
loopback; otherwise the first candidate; `none` when the lookup returned
nothing. -/
def selectAddr (entries : List IPAddr) : Option IPAddr :=
  match (pickCandidates entries).find? usableAddr with
  | some e => some e
  | none => (pickCandidates entries).head?

/-- A host argument: a literal IPv4/IPv6 address or a hostname to look
up. -/
inductive Host
  | literal (addr : IPAddr)
  | name (s : String)

/-- DNS oracle: what a hostname lookup would return. -/
structure DnsOS where
  lookup : String → List IPAddr

/-- A native call issued during resolution. -/
inductive ResolveEvent
  | lookupName (s : String)
deriving DecidableEq, Repr

/-- Modelled from the spec (the implementation of
`SocketHandler::getDomainIP` is missing from the sources): a literal host
bypasses the lookup and gets the port set directly; a hostname is looked
up and the result chosen by `selectAddr`; failure exactly when nothing
usable came back. -/
def getDomainIP (dns : DnsOS) (host : Host) (port : Nat) :
    Option SockAddrT × List ResolveEvent :=
  match host with
  | Host.literal a => (some ⟨a.family, a.value, port⟩, [])
  | Host.name s =>
    match selectAddr (dns.lookup s) with
    | some e => (some ⟨e.family, e.value, port⟩, [ResolveEvent.lookupName s])
    | none => (none, [ResolveEvent.lookupName s])

/-! ## Network interface introspection (spec 4.5) -/

/-- One host network interface: its name, its IPv4 address and its
netmask, both as 32-bit values. -/
structure Iface where
  name : String
  ip : Nat
  mask : Nat
deriving DecidableEq, Repr

/-- The host network environment: the OS interface table in enumeration
order, and the default netmask used when the owner of an address is
unknown. -/
structure NetEnv where
  ifaces : List Iface
  defaultMask : Nat

/-- Modelled from the spec (the implementation of
`SocketHandler::get_ifr_ip` is missing from the sources): the IPv4
address of the first interface with the given name, `none` when no
interface has that name. -/
def get_ifr_ip (env : NetEnv) (ifrName : String) : Option Nat :=
  (env.ifaces.find? (fun i => i.name == ifrName)).map Iface.ip

/-- Modelled from the spec (the implementation of
`SocketHandler::get_ifr_name` is missing from the sources): the inverse
lookup, scanning the interface table for the first interface with the
given IPv4 address. -/
def get_ifr_name (env : NetEnv) (localIp : Nat) : Option String :=
  (env.ifaces.find? (fun i => i.ip == localIp)).map Iface.name

/-- Modelled from the spec (the implementation of
`SocketHandler::get_ifr_mask` is missing from the sources): the netmask
of the first interface with the given name. -/
def get_ifr_mask (env : NetEnv) (ifrName : String) : Option Nat :=
  (env.ifaces.find? (fun i => i.name == ifrName)).map Iface.mask

/-- The netmask of the interface owning the given IPv4 address, or the
default netmask when no interface owns it. -/
def maskOfIp (env : NetEnv) (ip : Nat) : Nat :=
  match env.ifaces.find? (fun i => i.ip == ip) with
  | some i => i.mask
  | none => env.defaultMask

/-- Split a character sequence at every dot, keeping empty components
(the grouping `inet_addr` performs on a dotted literal). -/
def splitDots (cs : List Char) : List (List Char) :=
  match cs with
  | [] => [[]]
  | c :: rest =>
    let r := splitDots rest
    if c == '.' then [] :: r
    else
      match r with
      | [] => [[c]]
      | g :: gs => (c :: g) :: gs

/-- One dotted-quad component: one to three decimal digits with value at
most 255. -/
def parseDecByte (cs : List Char) : Option Nat :=
  if cs.length == 0 || 3 < cs.length then none
  else if cs.all Char.isDigit then
    let n := cs.foldl (fun acc c => acc * 10 + (c.toNat - 48)) 0
    if n ≤ 255 then some n else none
  else none

/-- Parse a dotted-quad IPv4 literal into its 32-bit value (what
`inet_addr` computes for a well-formed literal); `none` on malformed
input. -/
def parseIPv4 (s : String) : Option Nat :=
  match splitDots s.toList with
  | [a, b, c, d] =>
    match parseDecByte a, parseDecByte b, parseDecByte c, parseDecByte d with
    | some x, some y, some z, some w => some (((x * 256 + y) * 256 + z) * 256 + w)
    | _, _, _, _ => none
  | _ => none

/-- Modelled from the spec (the implementation of
`SocketHandler::in_same_lan` is missing from the sources): resolve the
netmask of the interface owning `myIp` (default when unknown) and compare
the masked addresses; false on any resolution failure, and total — it
never throws. -/
def in_same_lan (env : NetEnv) (myIp dstIp : String) : Bool :=
  match parseIPv4 myIp, parseIPv4 dstIp with
  | some a, some b =>
    let m := maskOfIp env a
    Nat.land a m == Nat.land b m
  | _, _ => false

/-! ## Multicast membership with source filtering (spec 4.4) -/

/-- Platform/OS oracle for multicast membership: whether the platform
supports source filtering at all, and whether the native membership call
reports an error. -/
structure McOS where
  hasSourceFilter : Bool
  callFails : Bool

/-- A native multicast membership operation actually issued to the OS. -/
inductive McEvent
  | joinSourceFiltered (sock : Int) (grp src localIp : String)
  | leaveSourceFiltered (sock : Int) (grp src localIp : String)
  | joinAnySource (sock : Int) (grp localIp : String)
  | leaveAnySource (sock : Int) (grp localIp : String)
deriving DecidableEq, Repr

/-- Modelled from the spec (the implementation of
`SocketHandler::joinMultiAddrFilter` is missing from the sources): on a
platform without source-filtering support the operation fails with `-1`
and issues no membership call at all — in particular no silent any-source
join; otherwise it issues the source-filtered join and propagates the OS
result. -/
def joinMultiAddrFilter (os : McOS) (sock : Int) (strAddr strSrcIp strLocalIp : String) :
    Int × List McEvent :=
  if os.hasSourceFilter then
    (if os.callFails then -1 else 0,
      [McEvent.joinSourceFiltered sock strAddr strSrcIp strLocalIp])
  else
    (-1, [])

/-- Modelled from the spec (the implementation of
`SocketHandler::leaveMultiAddrFilter` is missing from the sources): same
capability contract as `joinMultiAddrFilter`, for leaving. -/
def leaveMultiAddrFilter (os : McOS) (sock : Int) (strAddr strSrcIp strLocalIp : String) :
    Int × List McEvent :=
  if os.hasSourceFilter then
    (if os.callFails then -1 else 0,
      [McEvent.leaveSourceFiltered sock strAddr strSrcIp strLocalIp])
  else
    (-1, [])

/-! ## Endpoint establishment (`connect` and `listen`, spec 4.3) -/

/-- Outcome of the native connect call. `inProgress` is what a
non-blocking connect reports while the handshake is still running; it is
explicitly not a failure. -/
inductive ConnOutcome
  | success
  | inProgress
  | refused
  | unreachable
deriving DecidableEq, Repr

/-- Whether a connect outcome is a genuine failure (unreachable or
refused), as opposed to success or a non-blocking connect still in
progress. -/
def ConnOutcome.isGenuineFailure : ConnOutcome → Bool
  | ConnOutcome.refused => true
  | ConnOutcome.unreachable => true
  | _ => false

/-- A native call issued by `connect`, in issue order. -/
inductive ConnEvent
  | resolveHost (host : String)
  | socketCreate (fam : Family)
  | bindLocal (localIp : String) (localPort : Nat)
  | setNonBlocking
  | connectCall
deriving DecidableEq, Repr

/-- OS oracle for `connect`: the resolution answer, the descriptor the
socket call yields (a non-negative number, hence never the sentinel `-1`)
and the outcome of the native connect. -/
structure ConnOS where
  resolveRes : String → Nat → Option SockAddrT
  newFd : Nat
  outcome : ConnOutcome

/-- Modelled from the spec (the implementation of
`SocketHandler::connect` is missing from the sources): resolve the
target; create a socket of the matching family; bind first when a local
address or port is given; set non-blocking before the native connect when
`isAsync`; return the descriptor unless resolution failed or the connect
genuinely failed — an in-progress non-blocking connect counts as
success. -/
def SocketHandler.connect (os : ConnOS) (host : String) (port : Nat)
    (isAsync : Bool) (localIp : String) (localPort : Nat) :
    Int × List ConnEvent :=
  match os.resolveRes host port with
  | none => (-1, [ConnEvent.resolveHost host])
  | some sa =>
    let bindEvs : List ConnEvent :=
      if localIp == "0.0.0.0" && localPort == 0 then []
      else [ConnEvent.bindLocal localIp localPort]
    let asyncEvs : List ConnEvent :=
      if isAsync then [ConnEvent.setNonBlocking] else []
    let evs :=
      ConnEvent.resolveHost host :: ConnEvent.socketCreate sa.family ::
        (bindEvs ++ asyncEvs ++ [ConnEvent.connectCall])
    (if os.outcome.isGenuineFailure then -1 else (os.newFd : Int), evs)

/-- The two establishment failure kinds `listen` distinguishes. -/
inductive ListenErr
  | bindError
  | listenError
deriving DecidableEq, Repr

/-- A native call issued by `listen`, in issue order. -/
inductive ListenEvent
  | socketCreate
  | setReuse
  | bindCall (localIp : String) (port : Nat)
  | listenCall (backLog : Nat)
deriving DecidableEq, Repr

/-- OS oracle for `listen`: the descriptor the socket call yields and
whether the native bind and listen calls fail. -/
structure ListenOS where
  newFd : Nat
  bindFails : Bool
  listenFails : Bool

/-- Modelled from the spec (the implementation of
`SocketHandler::listen` is missing from the sources): create a TCP
socket, enable address reuse, bind to the given local address and port,
then mark it listening with the given backlog; the sentinel result is
`-1` on failure, and the diagnostic distinguishes a bind failure from a
listen failure. -/
def SocketHandler.listen (os : ListenOS) (port : Nat) (localIp : String)
    (backLog : Nat) : (Int × Option ListenErr) × List ListenEvent :=
  let pre := [ListenEvent.socketCreate, ListenEvent.setReuse,
    ListenEvent.bindCall localIp port]
  if os.bindFails then
    ((-1, some ListenErr.bindError), pre)
  else if os.listenFails then
    ((-1, some ListenErr.listenError), pre ++ [ListenEvent.listenCall backLog])
  else
    (((os.newFd : Int), none), pre ++ [ListenEvent.listenCall backLog])

/-! ## Reentrant address-to-string conversion (`inet_ntoa`, spec 4.1/5) -/

/-- Dotted-quad rendering of a 32-bit IPv4 value. -/
def ipv4ToString (addr : Nat) : String :=
  String.intercalate "."
    ([addr / 16777216 % 256, addr / 65536 % 256, addr / 256 % 256, addr % 256].map toString)

/-- The process-wide static buffer the classic non-reentrant conversion
routine would use. -/
structure SharedBuf where
  contents : String
deriving DecidableEq, Repr

/-- Modelled from the spec (the implementation of
`SocketHandler::inet_ntoa` is missing from the sources): the conversion
threaded through the shared static buffer, which it neither reads nor
writes — the result is a pure function of the address. -/
def inet_ntoa (buf : SharedBuf) (addr : Nat) : String × SharedBuf :=
  (ipv4ToString addr, buf)

/-- State of two threads concurrently converting addresses `a` and `b`:
the shared static buffer, each thread's private buffer, each thread's
program counter (0 = about to format, 1 = about to return, 2 = done) and
each thread's returned string. -/
structure TwoThreadState where
  shared : String
  aLocal : String
  bLocal : String
  aPC : Nat
  bPC : Nat
  aRes : Option String
  bRes : Option String

/-- One interleaving step of the reentrant conversion: the scheduled
thread (`true` = first thread, converting `a`) formats into its own
private buffer, then returns from its private buffer; the shared static
buffer is never touched. -/
def stepReentrant (a b : Nat) (who : Bool) (st : TwoThreadState) : TwoThreadState :=
  if who then
    match st.aPC with
    | 0 => { st with aLocal := ipv4ToString a, aPC := 1 }
    | 1 => { st with aRes := some st.aLocal, aPC := 2 }
    | _ => st
  else
    match st.bPC with
    | 0 => { st with bLocal := ipv4ToString b, bPC := 1 }
    | 1 => { st with bRes := some st.bLocal, bPC := 2 }
    | _ => st

/-- Run the two threads under an arbitrary schedule. -/
def runSched (a b : Nat) (sched : List Bool) (st : TwoThreadState) : TwoThreadState :=
  sched.foldl (fun s w => stepReentrant a b w s) st

/-- The initial state of the two-thread conversion: both threads at their
first step, nothing returned, an arbitrary shared buffer. -/
def initState (shared : String) : TwoThreadState :=
  ⟨shared, "", "", 0, 0, none, none⟩

/-- Thread-local soundness invariant for the first thread: whatever it
has returned so far is the dotted-quad rendering of its own address. -/
def AInv (a : Nat) (st : TwoThreadState) : Prop :=
  (st.aPC = 0 ∧ st.aRes = none)
    ∨ (st.aPC = 1 ∧ st.aLocal = ipv4ToString a ∧ st.aRes = none)
    ∨ (st.aPC = 2 ∧ st.aRes = some (ipv4ToString a))

/-- Thread-local soundness invariant for the second thread. -/
def BInv (b : Nat) (st : TwoThreadState) : Prop :=
  (st.bPC = 0 ∧ st.bRes = none)
    ∨ (st.bPC = 1 ∧ st.bLocal = ipv4ToString b ∧ st.bRes = none)
    ∨ (st.bPC = 2 ∧ st.bRes = some (ipv4ToString b))

/-! ## Theorems -/

/-- C3: every socket-option setter is a single-call wrapper: it returns
`-1` exactly when the one underlying OS option-setting call reports an
error, issues exactly that one native call (no effect beyond that single
option) and performs no layer-level validation of the handle — the call
is issued for every handle and every parameter value. -/
theorem optionSetters_single_call :
    (∀ sock enable, SingleCallSetter (fun os => setNoDelay os sock enable)
      (OptCall.sockopt sock OptName.TCP_NODELAY (if enable then 1 else 0)))
  ∧ (∀ sock, SingleCallSetter (fun os => setNoSigpipe os sock)
      (OptCall.sockopt sock OptName.SO_NOSIGPIPE 1))
  ∧ (∀ sock noblock, SingleCallSetter (fun os => setNoBlocked os sock noblock)
      (OptCall.ioctlFlag sock OptName.O_NONBLOCK noblock))
  ∧ (∀ sock size, SingleCallSetter (fun os => setRecvBuf os sock size)
      (OptCall.sockopt sock OptName.SO_RCVBUF size))
  ∧ (∀ sock size, SingleCallSetter (fun os => setSendBuf os sock size)
      (OptCall.sockopt sock OptName.SO_SNDBUF size))
  ∧ (∀ sock enable, SingleCallSetter (fun os => setReuseable os sock enable)
      (OptCall.sockopt sock OptName.SO_REUSEADDR (if enable then 1 else 0)))
  ∧ (∀ sock enable, SingleCallSetter (fun os => setBroadcast os sock enable)
      (OptCall.sockopt sock OptName.SO_BROADCAST (if enable then 1 else 0)))
  ∧ (∀ sock enable, SingleCallSetter (fun os => setKeepAlive os sock enable)
      (OptCall.sockopt sock OptName.SO_KEEPALIVE (if enable then 1 else 0)))
  ∧ (∀ fd enable, SingleCallSetter (fun os => setCloExec os fd enable)
      (OptCall.fcntlFlag fd OptName.FD_CLOEXEC enable))
  ∧ (∀ sock second, SingleCallSetter (fun os => setCloseWait os sock second)
      (OptCall.sockopt sock OptName.SO_LINGER second))
  ∧ (∀ sock ttl, SingleCallSetter (fun os => setMultiTTL os sock ttl)
      (OptCall.sockopt sock OptName.IP_MULTICAST_TTL ttl))
  ∧ (∀ sock strLocalIp, SingleCallSetter (fun os => setMultiIF os sock strLocalIp)
      (OptCall.sockoptAddr sock OptName.IP_MULTICAST_IF strLocalIp))
  ∧ (∀ sock bAccept, SingleCallSetter (fun os => setMultiLOOP os sock bAccept)
      (OptCall.sockopt sock OptName.IP_MULTICAST_LOOP (if bAccept then 1 else 0))) := by
  refine ⟨?_, ?_, ?_, ?_, ?_, ?_, ?_, ?_, ?_, ?_, ?_, ?_, ?_⟩ <;> intros <;>
    exact fun _ => rfl

/-- C10: calling `setRecvBuf` or `setSendBuf` at the declared default
argument requests exactly `SOCKET_DEFAULT_BUF_SIZE = 256 * 1024 = 262144`
bytes from the OS, for every handle and every OS oracle. -/
theorem defaultBufSize_spec :
    SOCKET_DEFAULT_BUF_SIZE = 256 * 1024
  ∧ (∀ os sock, setRecvBufDefault os sock
      = (if os.fails (OptCall.sockopt sock OptName.SO_RCVBUF 262144) then -1 else 0,
         [OptCall.sockopt sock OptName.SO_RCVBUF 262144]))
  ∧ (∀ os sock, setSendBufDefault os sock
      = (if os.fails (OptCall.sockopt sock OptName.SO_SNDBUF 262144) then -1 else 0,
         [OptCall.sockopt sock OptName.SO_SNDBUF 262144])) :=
  ⟨rfl, fun _ _ => rfl, fun _ _ => rfl⟩

/-- C5: for every literal host address and every port, `getDomainIP`
succeeds with an address whose family is the literal's family and whose
port is the input port, and performs no hostname lookup (the result does
not depend on the DNS oracle and the trace is empty). -/
theorem getDomainIP_literal_spec (dns : DnsOS) (a : IPAddr) (port : Nat) :
    getDomainIP dns (Host.literal a) port = (some ⟨a.family, a.value, port⟩, []) :=
  rfl

/-- C7: on a platform without OS support for multicast source filtering,
`joinMultiAddrFilter` and `leaveMultiAddrFilter` both fail with `-1` and
issue no membership operation at all — in particular they never downgrade
to a plain any-source join or leave. -/
theorem multiAddrFilter_unsupported (os : McOS) (sock : Int)
    (strAddr strSrcIp strLocalIp : String) (h : os.hasSourceFilter = false) :
    joinMultiAddrFilter os sock strAddr strSrcIp strLocalIp = (-1, [])
  ∧ leaveMultiAddrFilter os sock strAddr strSrcIp strLocalIp = (-1, []) := by
  unfold joinMultiAddrFilter leaveMultiAddrFilter
  rw [h]
  exact ⟨rfl, rfl⟩

/-- Witness for C7 at a concrete unsupported platform. -/
theorem multiAddrFilter_unsupported_witness :
    McOS.hasSourceFilter ⟨false, false⟩ = false
  ∧ (joinMultiAddrFilter ⟨false, false⟩ 3 "239.255.0.1" "10.0.0.2" "0.0.0.0" = (-1, [])
  ∧ leaveMultiAddrFilter ⟨false, false⟩ 3 "239.255.0.1" "10.0.0.2" "0.0.0.0" = (-1, [])) :=
  ⟨rfl, multiAddrFilter_unsupported ⟨false, false⟩ 3 "239.255.0.1" "10.0.0.2" "0.0.0.0" rfl⟩

/-- A step of the second thread leaves the first thread's fields alone. -/
theorem stepReentrant_false_aFields (a b : Nat) (st : TwoThreadState) :
    (stepReentrant a b false st).aPC = st.aPC
  ∧ (stepReentrant a b false st).aLocal = st.aLocal
  ∧ (stepReentrant a b false st).aRes = st.aRes := by
  unfold stepReentrant
  simp only [Bool.false_eq_true, if_false]
  rcases st.bPC with _ | _ | _ <;> exact ⟨rfl, rfl, rfl⟩

/-- A step of the first thread leaves the second thread's fields alone. -/
theorem stepReentrant_true_bFields (a b : Nat) (st : TwoThreadState) :
    (stepReentrant a b true st).bPC = st.bPC
  ∧ (stepReentrant a b true st).bLocal = st.bLocal
  ∧ (stepReentrant a b true st).bRes = st.bRes := by
  unfold stepReentrant
  simp only [if_true]
  rcases st.aPC with _ | _ | _ <;> exact ⟨rfl, rfl, rfl⟩

/-- Any interleaving step preserves the first thread's invariant. -/
theorem stepReentrant_AInv (a b : Nat) (w : Bool) (st : TwoThreadState)
    (h : AInv a st) : AInv a (stepReentrant a b w st) := by
  cases w with
  | false =>
    obtain ⟨h1, h2, h3⟩ := stepReentrant_false_aFields a b st
    unfold AInv
    rw [h1, h2, h3]
    exact h
  | true =>
    unfold stepReentrant
    simp only [if_true]
    rcases h with ⟨h1, h2⟩ | ⟨h1, h2, h3⟩ | ⟨h1, h2⟩
    · rw [h1]
      exact Or.inr (Or.inl ⟨rfl, rfl, h2⟩)
    · rw [h1]
      refine Or.inr (Or.inr ⟨rfl, ?_⟩)
      show some st.aLocal = some (ipv4ToString a)
      rw [h2]
    · rw [h1]
      exact Or.inr (Or.inr ⟨h1, h2⟩)

/-- Any interleaving step preserves the second thread's invariant. -/
theorem stepReentrant_BInv (a b : Nat) (w : Bool) (st : TwoThreadState)
    (h : BInv b st) : BInv b (stepReentrant a b w st) := by
  cases w with
  | true =>
    obtain ⟨h1, h2, h3⟩ := stepReentrant_true_bFields a b st
    unfold BInv
    rw [h1, h2, h3]
    exact h
  | false =>
    unfold stepReentrant
    simp only [Bool.false_eq_true, if_false]
    rcases h with ⟨h1, h2⟩ | ⟨h1, h2, h3⟩ | ⟨h1, h2⟩
    · rw [h1]
      exact Or.inr (Or.inl ⟨rfl, rfl, h2⟩)
    · rw [h1]
      refine Or.inr (Or.inr ⟨rfl, ?_⟩)
      show some st.bLocal = some (ipv4ToString b)
      rw [h2]
    · rw [h1]
      exact Or.inr (Or.inr ⟨h1, h2⟩)

/-- Running any schedule preserves the first thread's invariant. -/
theorem runSched_AInv (a b : Nat) (sched : List Bool) (st : TwoThreadState)
    (h : AInv a st) : AInv a (runSched a b sched st) := by
  induction sched generalizing st with
  | nil => exact h
  | cons w ws ih => exact ih _ (stepReentrant_AInv a b w st h)

/-- Running any schedule preserves the second thread's invariant. -/
theorem runSched_BInv (a b : Nat) (sched : List Bool) (st : TwoThreadState)
    (h : BInv b st) : BInv b (runSched a b sched st) := by
  induction sched generalizing st with
  | nil => exact h
  | cons w ws ih => exact ih _ (stepReentrant_BInv a b w st h)

/-- C9: `inet_ntoa` is a deterministic pure function of the address: its
result does not depend on the shared static buffer and it never writes
that buffer; consequently, under any interleaving of two concurrent
invocations from different threads, whatever each thread returns is the
dotted-quad rendering of its own address — the classic non-reentrant
shared-buffer hazard is absent. -/
theorem inet_ntoa_reentrant (b1 b2 : SharedBuf) (addr a b : Nat)
    (shared : String) (sched : List Bool) :
    (inet_ntoa b1 addr).1 = (inet_ntoa b2 addr).1
  ∧ (inet_ntoa b1 addr).2 = b1
  ∧ (inet_ntoa b1 addr).1 = ipv4ToString addr
  ∧ (∀ r, (runSched a b sched (initState shared)).aRes = some r → r = ipv4ToString a)
  ∧ (∀ s, (runSched a b sched (initState shared)).bRes = some s → s = ipv4ToString b) := by
  refine ⟨rfl, rfl, rfl, ?_, ?_⟩
  · intro r hr
    have hinv : AInv a (runSched a b sched (initState shared)) :=
      runSched_AInv a b sched (initState shared) (Or.inl ⟨rfl, rfl⟩)
    rcases hinv with ⟨_, h2⟩ | ⟨_, _, h3⟩ | ⟨_, h2⟩
    · rw [hr] at h2
      exact absurd h2 (by simp)
    · rw [hr] at h3
      exact absurd h3 (by simp)
    · rw [hr] at h2
      exact (Option.some_inj.mp h2).symm ▸ rfl
  · intro s hs
    have hinv : BInv b (runSched a b sched (initState shared)) :=
      runSched_BInv a b sched (initState shared) (Or.inl ⟨rfl, rfl⟩)
    rcases hinv with ⟨_, h2⟩ | ⟨_, _, h3⟩ | ⟨_, h2⟩
    · rw [hs] at h2
      exact absurd h2 (by simp)
    · rw [hs] at h3
      exact absurd h3 (by simp)
    · rw [hs] at h2
      exact (Option.some_inj.mp h2).symm ▸ rfl

/-- Witness for C9: a complete concrete interleaving in which both
threads finish and return the dotted-quad renderings of their own
addresses. -/
theorem inet_ntoa_reentrant_witness :
    "192.168.1.5" = ipv4ToString 3232235781
  ∧ "10.0.0.1" = ipv4ToString 167772161 :=
  ⟨(inet_ntoa_reentrant ⟨""⟩ ⟨"stale"⟩ 0 3232235781 167772161 "garbage"
      [true, false, true, false]).2.2.2.1 "192.168.1.5" (by decide),
   (inet_ntoa_reentrant ⟨""⟩ ⟨"stale"⟩ 0 3232235781 167772161 "garbage"
      [true, false, true, false]).2.2.2.2 "10.0.0.1" (by decide)⟩

/-- C6: `in_same_lan` returns true exactly when both inputs parse as
IPv4 literals and they agree under the netmask of the interface owning
the first address (the default mask when no interface owns it); it
returns false on any resolution failure, malformed input included, and it
is a total function — it cannot throw. -/
theorem in_same_lan_spec (env : NetEnv) (myIp dstIp : String) :
    in_same_lan env myIp dstIp = true ↔
      ∃ a b, parseIPv4 myIp = some a ∧ parseIPv4 dstIp = some b ∧
        Nat.land a (maskOfIp env a) = Nat.land b (maskOfIp env a) := by
  unfold in_same_lan
  cases h1 : parseIPv4 myIp <;> cases h2 : parseIPv4 dstIp <;>
    simp [h1, h2, Nat.beq_eq_true_eq]

/-- Witness for C6: the spec's own examples under a /24 interface owning
`192.168.1.5`: same subnet as `192.168.1.200`, different subnet from
`10.0.0.1`. -/
theorem in_same_lan_spec_witness :
    in_same_lan ⟨[⟨"eth0", 3232235781, 4294967040⟩], 4294967040⟩
      "192.168.1.5" "192.168.1.200" = true
  ∧ in_same_lan ⟨[⟨"eth0", 3232235781, 4294967040⟩], 4294967040⟩
      "192.168.1.5" "10.0.0.1" = false :=
  ⟨(in_same_lan_spec ⟨[⟨"eth0", 3232235781, 4294967040⟩], 4294967040⟩
      "192.168.1.5" "192.168.1.200").mpr
      ⟨3232235781, 3232235976, by decide, by decide, by decide⟩,
   by decide⟩

/-- C8: when `get_ifr_ip` resolves an interface name to an address and
exactly one interface carries that address, the inverse lookup
`get_ifr_name` returns the original name. -/
theorem ifr_roundtrip (env : NetEnv) (ifrName : String) (ip : Nat)
    (hip : get_ifr_ip env ifrName = some ip)
    (huniq : (env.ifaces.filter (fun i => i.ip == ip)).length = 1) :
    get_ifr_name env ip = some ifrName := by
  unfold get_ifr_ip at hip
  obtain ⟨j, hfind, hjip⟩ := Option.map_eq_some'.mp hip
  have hjmem : j ∈ env.ifaces := List.mem_of_find?_eq_some hfind
  have hjname := List.find?_some hfind
  obtain ⟨x, hx⟩ := List.length_eq_one.mp huniq
  have hjfilter : j ∈ env.ifaces.filter (fun i => i.ip == ip) :=
    List.mem_filter.mpr ⟨hjmem, by simp [hjip]⟩
  have hjx : j = x := by
    rw [hx] at hjfilter
    simpa using hjfilter
  have hsome : (env.ifaces.find? (fun i => i.ip == ip)).isSome :=
    List.find?_isSome.mpr ⟨j, hjmem, by simp [hjip]⟩
  obtain ⟨y, hy⟩ := Option.isSome_iff_exists.mp hsome
  have hymem : y ∈ env.ifaces := List.mem_of_find?_eq_some hy
  have hyip := List.find?_some hy
  have hyfilter : y ∈ env.ifaces.filter (fun i => i.ip == ip) :=
    List.mem_filter.mpr ⟨hymem, hyip⟩
  have hyx : y = x := by
    rw [hx] at hyfilter
    simpa using hyfilter
  unfold get_ifr_name
  rw [hy, hyx, ← hjx]
  simp only [Option.map_some']
  have hn : j.name = ifrName := by simpa using hjname
  rw [hn]

/-- Witness for C8: a one-interface table where the round trip holds. -/
theorem ifr_roundtrip_witness :
    get_ifr_ip ⟨[⟨"eth0", 3232235781, 4294967040⟩], 0⟩ "eth0" = some 3232235781
  ∧ (([⟨"eth0", 3232235781, 4294967040⟩] : List Iface).filter
      (fun i => i.ip == 3232235781)).length = 1
  ∧ get_ifr_name ⟨[⟨"eth0", 3232235781, 4294967040⟩], 0⟩ 3232235781 = some "eth0" :=
  ⟨by decide, by decide,
   ifr_roundtrip ⟨[⟨"eth0", 3232235781, 4294967040⟩], 0⟩ "eth0" 3232235781
     (by decide) (by decide)⟩

/-- The candidate list is empty exactly when the lookup returned
nothing. -/
theorem pickCandidates_eq_nil_iff (entries : List IPAddr) :
    pickCandidates entries = [] ↔ entries = [] := by
  unfold pickCandidates
  split
  · rename_i h
    constructor
    · intro hf
      rcases List.any_eq_true.mp h with ⟨e, he, hfam⟩
      have hmem : e ∈ entries.filter (fun e => e.family == Family.ipv4) :=
        List.mem_filter.mpr ⟨he, hfam⟩
      rw [hf] at hmem
      exact absurd hmem (List.not_mem_nil e)
    · intro h0
      rw [h0]
      rfl
  · exact Iff.rfl

/-- A selected address always comes from the candidate list. -/
theorem selectAddr_mem (entries : List IPAddr) (e : IPAddr)
    (h : selectAddr entries = some e) : e ∈ pickCandidates entries := by
  unfold selectAddr at h
  cases hf : (pickCandidates entries).find? usableAddr with
  | some x =>
    rw [hf] at h
    obtain rfl := Option.some_inj.mp h
    exact List.mem_of_find?_eq_some hf
  | none =>
    rw [hf] at h
    cases hc : pickCandidates entries with
    | nil =>
      rw [hc] at h
      exact absurd h (by simp)
    | cons c cs =>
      rw [hc] at h
      obtain rfl : c = e := Option.some_inj.mp h
      exact List.mem_cons_self c cs

/-- Selection fails exactly when the lookup returned nothing. -/
theorem selectAddr_eq_none_iff (entries : List IPAddr) :
    selectAddr entries = none ↔ entries = [] := by
  constructor
  · intro h
    unfold selectAddr at h
    cases hf : (pickCandidates entries).find? usableAddr with
    | some x =>
      rw [hf] at h
      exact absurd h (by simp)
    | none =>
      rw [hf] at h
      cases hc : pickCandidates entries with
      | nil => exact (pickCandidates_eq_nil_iff entries).mp hc
      | cons c cs =>
        rw [hc] at h
        exact absurd h (by simp)
  · intro h
    rw [h]
    rfl

/-- C4: `getDomainIP` settles multiple lookup records deterministically:
it fails exactly when the lookup yields no entry; it answers an IPv4
address whenever both IPv4 and IPv6 records exist; among the candidates
it answers the first address that is neither the any-address nor
loopback when one exists, and otherwise falls back to the first
candidate. -/
theorem getDomainIP_name_policy (dns : DnsOS) (s : String) (port : Nat) :
    ((getDomainIP dns (Host.name s) port).1 = none ↔ dns.lookup s = [])
  ∧ ((∃ a ∈ dns.lookup s, a.family = Family.ipv4) →
      (∃ b ∈ dns.lookup s, b.family = Family.ipv6) →
      ∀ sa, (getDomainIP dns (Host.name s) port).1 = some sa →
        sa.family = Family.ipv4)
  ∧ (∀ e, (pickCandidates (dns.lookup s)).find? usableAddr = some e →
      (getDomainIP dns (Host.name s) port).1 = some ⟨e.family, e.value, port⟩)
  ∧ ((pickCandidates (dns.lookup s)).find? usableAddr = none →
      (getDomainIP dns (Host.name s) port).1
        = (pickCandidates (dns.lookup s)).head?.map
            (fun e => SockAddrT.mk e.family e.value port)) := by
  refine ⟨?_, ?_, ?_, ?_⟩
  · simp only [getDomainIP]
    cases hsel : selectAddr (dns.lookup s) with
    | some e =>
      simp only [hsel]
      constructor
      · intro h
        exact absurd h (by simp)
      · intro h
        rw [h] at hsel
        rw [(selectAddr_eq_none_iff []).mpr rfl] at hsel
        exact absurd hsel (by simp)
    | none =>
      simp only [hsel]
      simp only [true_iff]
      exact (selectAddr_eq_none_iff (dns.lookup s)).mp hsel
  · rintro ⟨a, ha, hafam⟩ _ sa hsa
    simp only [getDomainIP] at hsa
    cases hsel : selectAddr (dns.lookup s) with
    | none =>
      rw [hsel] at hsa
      exact absurd hsa (by simp)
    | some e =>
      rw [hsel] at hsa
      obtain rfl : SockAddrT.mk e.family e.value port = sa := Option.some_inj.mp hsa
      have hany : (dns.lookup s).any (fun e => e.family == Family.ipv4) = true :=
        List.any_eq_true.mpr ⟨a, ha, by simp [hafam]⟩
      have hmem : e ∈ pickCandidates (dns.lookup s) := selectAddr_mem _ _ hsel
      unfold pickCandidates at hmem
      rw [hany] at hmem
      simp only [if_true] at hmem
      have := (List.mem_filter.mp hmem).2
      simpa using this
  · intro e hf
    simp only [getDomainIP]
    have hsel : selectAddr (dns.lookup s) = some e := by
      unfold selectAddr
      rw [hf]
    rw [hsel]
  · intro hf
    simp only [getDomainIP]
    have hsel : selectAddr (dns.lookup s) = (pickCandidates (dns.lookup s)).head? := by
      unfold selectAddr
      rw [hf]
    rw [hsel]
    cases hc : (pickCandidates (dns.lookup s)).head? with
    | none => rfl
    | some c => rfl

/-- Witness for C4: a lookup answering a loopback IPv6 record, the IPv4
any-address and a routable IPv4 address; the routable IPv4 address is
chosen and the preferred family is IPv4. -/
theorem getDomainIP_name_policy_witness :
    (getDomainIP ⟨fun _ => [⟨Family.ipv6, 1⟩, ⟨Family.ipv4, 0⟩, ⟨Family.ipv4, 3232235781⟩]⟩
      (Host.name "example.com") 80).1 = some ⟨Family.ipv4, 3232235781, 80⟩
  ∧ SockAddrT.family ⟨Family.ipv4, 3232235781, 80⟩ = Family.ipv4 := by
  have h := getDomainIP_name_policy
    ⟨fun _ => [⟨Family.ipv6, 1⟩, ⟨Family.ipv4, 0⟩, ⟨Family.ipv4, 3232235781⟩]⟩ "example.com" 80
  refine ⟨h.2.2.1 ⟨Family.ipv4, 3232235781⟩ (by decide), ?_⟩
  exact h.2.1 ⟨⟨Family.ipv4, 0⟩, by decide, rfl⟩ ⟨⟨Family.ipv6, 1⟩, by decide, rfl⟩
    ⟨Family.ipv4, 3232235781, 80⟩ (h.2.2.1 ⟨Family.ipv4, 3232235781⟩ (by decide))

/-- C1: `connect` issues any requested local bind and any requested
non-blocking switch strictly before the native connect call; it returns
`-1` exactly on genuine failure (resolution failure, or an unreachable or
refused connect) and otherwise returns the created descriptor — an
in-progress non-blocking connect counts as success. -/
theorem connect_spec (os : ConnOS) (host : String) (port : Nat) (isAsync : Bool)
    (localIp : String) (localPort : Nat) :
    (os.resolveRes host port = none →
      SocketHandler.connect os host port isAsync localIp localPort
        = (-1, [ConnEvent.resolveHost host]))
  ∧ (∀ sa, os.resolveRes host port = some sa →
      ∃ pre,
        (SocketHandler.connect os host port isAsync localIp localPort).2
            = pre ++ [ConnEvent.connectCall]
        ∧ ConnEvent.connectCall ∉ pre
        ∧ ((localIp == "0.0.0.0" && localPort == 0) = false →
            ConnEvent.bindLocal localIp localPort ∈ pre)
        ∧ (isAsync = true → ConnEvent.setNonBlocking ∈ pre)
        ∧ ((SocketHandler.connect os host port isAsync localIp localPort).1 = -1
            ↔ os.outcome.isGenuineFailure = true)
        ∧ (os.outcome.isGenuineFailure = false →
            (SocketHandler.connect os host port isAsync localIp localPort).1
              = (os.newFd : Int))) := by
  constructor
  · intro h
    simp [SocketHandler.connect, h]
  · intro sa hsa
    refine ⟨ConnEvent.resolveHost host :: ConnEvent.socketCreate sa.family ::
      ((if localIp == "0.0.0.0" && localPort == 0 then ([] : List ConnEvent)
        else [ConnEvent.bindLocal localIp localPort])
       ++ (if isAsync then [ConnEvent.setNonBlocking] else [])),
      ?_, ?_, ?_, ?_, ?_, ?_⟩
    · simp [SocketHandler.connect, hsa, List.append_assoc]
    · split <;> split <;> simp
    · intro h
      simp [h]
    · intro h
      simp [h]
    · simp only [SocketHandler.connect, hsa]
      cases hg : os.outcome.isGenuineFailure <;> simp [hg]
    · intro hg
      simp [SocketHandler.connect, hsa, hg]

/-- Witness for C1: an asynchronous connect with a local bind whose
non-blocking connect is in progress: the descriptor is returned and the
bind and non-blocking switch precede the connect call. -/
theorem connect_spec_witness :
    (SocketHandler.connect ⟨fun _ _ => some ⟨Family.ipv4, 3232235781, 80⟩, 7,
      ConnOutcome.inProgress⟩ "example.com" 80 true "192.168.1.5" 5000).1 = 7 := by
  obtain ⟨pre, -, -, -, -, -, hres⟩ :=
    (connect_spec ⟨fun _ _ => some ⟨Family.ipv4, 3232235781, 80⟩, 7, ConnOutcome.inProgress⟩
      "example.com" 80 true "192.168.1.5" 5000).2 ⟨Family.ipv4, 3232235781, 80⟩ rfl
  exact hres rfl

/-- C2: `listen` creates a TCP socket, enables address reuse and binds to
the given local address and port, in that order, and (when the bind
succeeded) marks the socket listening with the given backlog; a bind
failure and a listen failure are reported as the distinct diagnostics
`bindError` and `listenError`. -/
theorem listen_spec (os : ListenOS) (port : Nat) (localIp : String) (backLog : Nat) :
    ((SocketHandler.listen os port localIp backLog).2.take 3
        = [ListenEvent.socketCreate, ListenEvent.setReuse, ListenEvent.bindCall localIp port])
  ∧ (os.bindFails = true →
      SocketHandler.listen os port localIp backLog
        = ((-1, some ListenErr.bindError),
           [ListenEvent.socketCreate, ListenEvent.setReuse, ListenEvent.bindCall localIp port]))
  ∧ (os.bindFails = false → os.listenFails = true →
      SocketHandler.listen os port localIp backLog
        = ((-1, some ListenErr.listenError),
           [ListenEvent.socketCreate, ListenEvent.setReuse, ListenEvent.bindCall localIp port,
            ListenEvent.listenCall backLog]))
  ∧ (os.bindFails = false → os.listenFails = false →
      SocketHandler.listen os port localIp backLog
        = (((os.newFd : Int), none),
           [ListenEvent.socketCreate, ListenEvent.setReuse, ListenEvent.bindCall localIp port,
            ListenEvent.listenCall backLog]))
  ∧ ListenErr.bindError ≠ ListenErr.listenError := by
  refine ⟨?_, ?_, ?_, ?_, by decide⟩
  · cases hb : os.bindFails <;> cases hl : os.listenFails <;>
      simp [SocketHandler.listen, hb, hl]
  · intro hb
    simp [SocketHandler.listen, hb]
  · intro hb hl
    simp [SocketHandler.listen, hb, hl]
  · intro hb hl
    simp [SocketHandler.listen, hb, hl]

/-- Witness for C2: a failing bind is reported as `bindError` with no
listen call issued. -/
theorem listen_spec_witness :
    SocketHandler.listen ⟨5, true, false⟩ 8080 "0.0.0.0" 1024
      = ((-1, some ListenErr.bindError),
         [ListenEvent.socketCreate, ListenEvent.setReuse,
          ListenEvent.bindCall "0.0.0.0" 8080]) :=
  (listen_spec ⟨5, true, false⟩ 8080 "0.0.0.0" 1024).2.1 rfl

end JCToolKit
